import Mathlib

/-!
Shallow embedding of `src/xcode-tools/src/xcrun.rs`: an xcrun-style tool
dispatcher.  The Rust program parses a CLI struct (`Xcrun`), loads an
ordered list of SDK descriptors (`XcrunConfiguration`), and then runs a
fixed sequence of phases inside `main`: version print, five whole-store
dump loops, a `find` query phase, an execution phase over free arguments,
and a verbose dump.  Filesystem existence checks are modelled by an
oracle `fs : String → Bool` over rendered paths, and the observable
behaviour of a run is a list of events (stdout lines, stderr lines,
subprocess spawns) together with an outcome (normal completion, a
`std::process::exit` code, or a panic from an `unwrap`).
-/

/-- One SDK record, mirroring `struct Sdk` in `xcrun.rs`. -/
structure Sdk where
  name : String
  path : String
  version : String
  target_triple : String
  macosx_deployment_target : String
  ios_deployment_target : String
  deriving Repr, DecidableEq

/-- The loaded configuration, mirroring `struct XcrunConfiguration`. -/
structure XcrunConfiguration where
  sdks : List Sdk
  deriving Repr, DecidableEq

/-- The parsed command line, mirroring `struct Xcrun` (clap-derived). -/
structure Xcrun where
  version : Bool
  verbose : Bool
  sdk : Option String
  toolchain : Option String
  log : Bool
  find : Option String
  no_cache : Bool
  kill_cache : Bool
  show_sdk_path : Bool
  show_sdk_version : Bool
  show_sdk_target_triple : Bool
  show_sdk_toolchain_path : Bool
  show_sdk_toolchain_version : Bool
  run : Option String
  arguments : List String
  deriving Repr, DecidableEq

/-- `PathBuf::join` on already-relative components: base, separator, leaf. -/
def pathJoin (a b : String) : String := a ++ "/" ++ b

/-- The environment given to the spawned subprocess (the three variables
`main` sets with `command.env`). -/
structure SpawnEnv where
  sdkroot : String
  path : String
  ld_library_path : String
  deriving Repr, DecidableEq

/-- Observable events of a run: stdout lines, stderr lines, the verbose
`println!("{:?}", xcrun)` debug dump, and subprocess spawns. -/
inductive Event where
  | stdout (line : String)
  | stderr (line : String)
  | stdoutDebug (x : Xcrun)
  | spawn (exe : String) (args : List String) (env : SpawnEnv)
  deriving Repr, DecidableEq

/-- How the process ends: fell off the end of `main`, called
`std::process::exit(code)`, or panicked on an `unwrap`. -/
inductive Outcome where
  | completed
  | exited (code : Int)
  | panicked
  deriving Repr, DecidableEq

/-- Ambient world: filesystem-existence oracle over rendered paths, the
ambient `PATH` and `LD_LIBRARY_PATH` variables, and the result of
`Command::status()` for the (at most one) spawned subprocess:
`none` = spawn error, `some none` = terminated without an exit code
(signal), `some (some c)` = exited with code `c`. -/
structure World where
  fs : String → Bool
  path_var : Option String
  ld_library_path : Option String
  spawnResult : Option (Option Int)

/-- The SDK-selection predicate shared verbatim by the find phase
(lines 123-133) and the execution phase (lines 153-163): with an
`--sdk` hint, exact name equality; without, existence probing at
`<path>/bin/<tool>` and `<path>/usr/bin/<tool>`. -/
def sdkMatches (fs : String → Bool) (sdkHint : Option String) (tool : String)
    (sdk : Sdk) : Bool :=
  match sdkHint with
  | some sdk_name => sdk_name == sdk.name
  | none =>
      fs (pathJoin (pathJoin sdk.path "bin") tool)
        || fs (pathJoin (pathJoin sdk.path "usr/bin") tool)

/-- `configuration.sdks.iter().find(...)`: first descriptor in store order
satisfying `sdkMatches`. -/
def selectSdk (fs : String → Bool) (configuration : XcrunConfiguration)
    (sdkHint : Option String) (tool : String) : Option Sdk :=
  configuration.sdks.find? (sdkMatches fs sdkHint tool)

/-- `fn find_tool`: probe `<sdk.path>/bin/<tool>` first, then
`<sdk.path>/usr/bin/<tool>`, else `None`. -/
def find_tool (fs : String → Bool) (sdk : Sdk) (tool : String) : Option String :=
  let tool_path := pathJoin (pathJoin sdk.path "bin") tool
  if fs tool_path then some tool_path
  else
    let tool_path := pathJoin (pathJoin sdk.path "usr/bin") tool
    if fs tool_path then some tool_path
    else none

/-- One whole-store dump loop: `if flag { for sdk in &configuration.sdks
{ println!("{}", f(sdk)) } }`. -/
def dumpLines (flag : Bool) (configuration : XcrunConfiguration)
    (f : Sdk → String) : List Event :=
  if flag then configuration.sdks.map (fun sdk => Event.stdout (f sdk)) else []

/-- The five dump loops of `main` (lines 89-117), in source order.
The two `toolchain` flags print `path` and `version` again. -/
def dumpEvents (configuration : XcrunConfiguration) (xcrun : Xcrun) : List Event :=
  dumpLines xcrun.show_sdk_path configuration (fun sdk => sdk.path)
    ++ dumpLines xcrun.show_sdk_version configuration (fun sdk => sdk.version)
    ++ dumpLines xcrun.show_sdk_target_triple configuration (fun sdk => sdk.target_triple)
    ++ dumpLines xcrun.show_sdk_toolchain_path configuration (fun sdk => sdk.path)
    ++ dumpLines xcrun.show_sdk_toolchain_version configuration (fun sdk => sdk.version)

/-- The `find` phase of `main` (lines 119-146).  Returns the events it
emits and `some outcome` when it terminates the process (the two
`std::process::exit(1)` sites), `none` when control falls through. -/
def findPhase (fs : String → Bool) (configuration : XcrunConfiguration)
    (xcrun : Xcrun) : List Event × Option Outcome :=
  match xcrun.find with
  | none => ([], none)
  | some tool =>
    match selectSdk fs configuration xcrun.sdk tool with
    | none =>
        ([Event.stderr ("xcrun: error: tool not found: " ++ tool)],
         some (Outcome.exited 1))
    | some sdk =>
      match find_tool fs sdk tool with
      | none =>
          ([Event.stderr ("xcrun: error: tool not found: " ++ tool)],
           some (Outcome.exited 1))
      | some tool_path => ([Event.stdout tool_path], none)

/-- The subprocess environment built at lines 166-178: `SDKROOT` is
replaced, `PATH` is the SDK path colon-prepended to the ambient `PATH`
(whose absence panics at line 169), `LD_LIBRARY_PATH` is
`format!("{}/lib:{}", sdk.path, ambient.unwrap_or_default())`. -/
def buildEnv (sdk : Sdk) (ambientPath : String) (ambientLd : Option String) :
    SpawnEnv :=
  { sdkroot := sdk.path
    path := sdk.path ++ ":" ++ ambientPath
    ld_library_path := sdk.path ++ "/lib:" ++ ambientLd.getD "" }

/-- The execution phase of `main` (lines 148-193).  Runs only when the
free arguments are nonempty; every failure there is an `unwrap` panic,
and on success the phase ends in `std::process::exit(status.code().unwrap())`. -/
def execPhase (w : World) (configuration : XcrunConfiguration)
    (xcrun : Xcrun) : List Event × Option Outcome :=
  match xcrun.arguments with
  | [] => ([], none)
  | tool :: rest =>
    match selectSdk w.fs configuration xcrun.sdk tool with
    | none => ([], some Outcome.panicked)
    | some sdk =>
      match find_tool w.fs sdk tool with
      | none => ([], some Outcome.panicked)
      | some tool_path =>
        match w.path_var with
        | none => ([], some Outcome.panicked)
        | some ambient_path =>
          let env := buildEnv sdk ambient_path w.ld_library_path
          let logEvs :=
            if xcrun.log then
              [Event.stdout ("xcrun: info: invoking command: \n\t\""
                ++ String.intercalate " " (tool :: rest) ++ "\"")]
            else []
          match w.spawnResult with
          | none => (logEvs ++ [Event.spawn tool_path rest env], some Outcome.panicked)
          | some none => (logEvs ++ [Event.spawn tool_path rest env], some Outcome.panicked)
          | some (some code) =>
              (logEvs ++ [Event.spawn tool_path rest env], some (Outcome.exited code))

/-- `fn main` from the version print onward (lines 85-198), with the
already-loaded configuration and parsed CLI as inputs: version print,
dump loops, find phase, execution phase, verbose dump, in that order;
a phase that terminates the process cuts the rest off. -/
def mainRun (w : World) (configuration : XcrunConfiguration) (xcrun : Xcrun) :
    List Event × Outcome :=
  let versionEvs := if xcrun.version then [Event.stdout "xcrun 1.0.0"] else []
  let dumpEvs := dumpEvents configuration xcrun
  match findPhase w.fs configuration xcrun with
  | (findEvs, some o) => (versionEvs ++ dumpEvs ++ findEvs, o)
  | (findEvs, none) =>
    match execPhase w configuration xcrun with
    | (execEvs, some o) => (versionEvs ++ dumpEvs ++ findEvs ++ execEvs, o)
    | (execEvs, none) =>
      let verboseEvs := if xcrun.verbose then [Event.stdoutDebug xcrun] else []
      (versionEvs ++ dumpEvs ++ findEvs ++ execEvs ++ verboseEvs, Outcome.completed)

/-- Recognizer for subprocess-spawn events. -/
def Event.isSpawn : Event → Bool
  | .spawn _ _ _ => true
  | _ => false

/-- Recognizer for the verbose debug-dump event. -/
def Event.isDebugDump : Event → Bool
  | .stdoutDebug _ => true
  | _ => false

/-! ### Concrete fixtures for witnesses and counterexamples -/

def sdkA : Sdk :=
  { name := "a", path := "/A", version := "1.0", target_triple := "x-a"
    macosx_deployment_target := "10", ios_deployment_target := "11" }

def sdkB : Sdk :=
  { name := "b", path := "/B", version := "2.0", target_triple := "x-b"
    macosx_deployment_target := "12", ios_deployment_target := "13" }

def cfgAB : XcrunConfiguration := { sdks := [sdkA, sdkB] }

/-- A CLI invocation with every flag off and no tokens. -/
def xcrunNone : Xcrun :=
  { version := false, verbose := false, sdk := none, toolchain := none
    log := false, find := none, no_cache := false, kill_cache := false
    show_sdk_path := false, show_sdk_version := false
    show_sdk_target_triple := false, show_sdk_toolchain_path := false
    show_sdk_toolchain_version := false, run := none, arguments := [] }

/-- A single-SDK store. -/
def cfgA : XcrunConfiguration := { sdks := [sdkA] }

/-- An invocation in execution mode on the single token `t`. -/
def xArgsT : Xcrun := { xcrunNone with arguments := ["t"] }

/-- A world where every probed path exists, parameterized by the result
of `Command::status()` for the spawned subprocess. -/
def wTrue (sr : Option (Option Int)) : World :=
  { fs := fun _ => true, path_var := some "P", ld_library_path := none,
    spawnResult := sr }

/-- An invocation requesting the version print, the verbose dump, and
execution of the tool `t`, all at once. -/
def xVerboseRun : Xcrun :=
  { xcrunNone with version := true, verbose := true, arguments := ["t"] }

/-- An invocation requesting only the verbose dump. -/
def xVerboseOnly : Xcrun := { xcrunNone with verbose := true }

/-! ### Generic first-match characterization of `List.find?` -/

theorem find?_first {α} (p : α → Bool) (l : List α) (a : α)
    (h : l.find? p = some a) :
    ∃ pre post, l = pre ++ a :: post ∧ p a = true ∧ ∀ x ∈ pre, p x = false := by
  induction l with
  | nil => simp [List.find?] at h
  | cons b t ih =>
    rw [List.find?] at h
    cases hb : p b with
    | true =>
      rw [hb] at h
      refine ⟨[], t, ?_, ?_, by simp⟩
      · simp at h; simp [h]
      · simp at h; rw [← h]; exact hb
    | false =>
      rw [hb] at h
      obtain ⟨pre, post, hl, hpa, hpre⟩ := ih h
      exact ⟨b :: pre, post, by simp [hl], hpa, by
        intro x hx
        rcases List.mem_cons.mp hx with h1 | h2
        · subst h1; exact hb
        · exact hpre x h2⟩

theorem find?_of_first {α} (p : α → Bool) (pre post : List α) (a : α)
    (hpa : p a = true) (hpre : ∀ x ∈ pre, p x = false) :
    (pre ++ a :: post).find? p = some a := by
  induction pre with
  | nil => simp [List.find?, hpa]
  | cons b t ih =>
    have hb : p b = false := hpre b (by simp)
    simp only [List.cons_append, List.find?, hb]
    exact ih (fun x hx => hpre x (by simp [hx]))

/-! ### C1, C5, C6: selection and location -/

/-- C1: with an `sdkHint`, selection (the predicate shared by find mode
and execution mode) is independent of the filesystem oracle and the tool
name, returns the first descriptor in store order whose `name` equals the
hint by exact string match, and returns nothing when no name equals the
hint (no fallback to path probing). -/
theorem C1_hint_selection (fs fs' : String → Bool)
    (configuration : XcrunConfiguration) (hint tool tool' : String) :
    selectSdk fs configuration (some hint) tool
        = selectSdk fs' configuration (some hint) tool'
    ∧ (∀ sdk, selectSdk fs configuration (some hint) tool = some sdk →
        sdk.name = hint ∧ ∃ pre post, configuration.sdks = pre ++ sdk :: post ∧
          ∀ s ∈ pre, s.name ≠ hint)
    ∧ (∀ pre sdk post, configuration.sdks = pre ++ sdk :: post →
        sdk.name = hint → (∀ s ∈ pre, s.name ≠ hint) →
        selectSdk fs configuration (some hint) tool = some sdk)
    ∧ ((∀ s ∈ configuration.sdks, s.name ≠ hint) →
        selectSdk fs configuration (some hint) tool = none) := by
  refine ⟨rfl, ?_, ?_, ?_⟩
  · intro sdk h
    obtain ⟨pre, post, hl, hpa, hpre⟩ := find?_first _ _ _ h
    have hname : hint = sdk.name := by
      simpa [sdkMatches] using hpa
    refine ⟨hname.symm, pre, post, hl, ?_⟩
    intro s hs
    have := hpre s hs
    simp [sdkMatches] at this
    exact fun hc => this (hc ▸ rfl)
  · intro pre sdk post hl hname hpre
    rw [selectSdk, hl]
    exact find?_of_first _ _ _ _ (by simp [sdkMatches, hname])
      (fun s hs => by simpa [sdkMatches] using fun hc => hpre s hs hc.symm)
  · intro hnone
    rw [selectSdk, List.find?_eq_none]
    intro s hs
    simp [sdkMatches]
    exact fun hc => hnone s hs hc.symm

theorem C1_hint_selection_witness :
    selectSdk (fun _ => false) cfgAB (some "b") "tool" = some sdkB :=
  (C1_hint_selection (fun _ => false) (fun _ => true) cfgAB "b" "tool" "x").2.2.1
    [sdkA] sdkB [] rfl rfl (by decide)

/-- C5: without an `sdkHint`, selection returns the first descriptor in
store order under whose `path` the tool exists at `bin/<tool>` or
`usr/bin/<tool>`; every earlier descriptor has the tool at neither
location, so the earliest qualifying descriptor wins deterministically. -/
theorem C5_probe_selection (fs : String → Bool)
    (configuration : XcrunConfiguration) (tool : String) :
    (∀ sdk, selectSdk fs configuration none tool = some sdk →
        ∃ pre post, configuration.sdks = pre ++ sdk :: post ∧
          (fs (pathJoin (pathJoin sdk.path "bin") tool) = true
            ∨ fs (pathJoin (pathJoin sdk.path "usr/bin") tool) = true) ∧
          ∀ s ∈ pre, fs (pathJoin (pathJoin s.path "bin") tool) = false ∧
            fs (pathJoin (pathJoin s.path "usr/bin") tool) = false)
    ∧ (∀ pre sdk post, configuration.sdks = pre ++ sdk :: post →
        (fs (pathJoin (pathJoin sdk.path "bin") tool) = true
          ∨ fs (pathJoin (pathJoin sdk.path "usr/bin") tool) = true) →
        (∀ s ∈ pre, fs (pathJoin (pathJoin s.path "bin") tool) = false ∧
          fs (pathJoin (pathJoin s.path "usr/bin") tool) = false) →
        selectSdk fs configuration none tool = some sdk) := by
  constructor
  · intro sdk h
    obtain ⟨pre, post, hl, hpa, hpre⟩ := find?_first _ _ _ h
    refine ⟨pre, post, hl, ?_, ?_⟩
    · simpa [sdkMatches] using hpa
    · intro s hs
      have := hpre s hs
      simp [sdkMatches] at this
      exact this
  · intro pre sdk post hl hexist hpre
    rw [selectSdk, hl]
    refine find?_of_first _ _ _ _ ?_ ?_
    · simp [sdkMatches]
      exact hexist
    · intro s hs
      simp [sdkMatches]
      exact hpre s hs

theorem C5_probe_selection_witness :
    selectSdk (fun p => p == "/B/usr/bin/t") cfgAB none "t" = some sdkB :=
  (C5_probe_selection (fun p => p == "/B/usr/bin/t") cfgAB "t").2
    [sdkA] sdkB [] rfl (by right; decide) (by decide)

/-- C6: tool location probes `<sdk.path>/bin/<tool>` first and returns it
when present (even when `usr/bin` also has the tool); only when it is
absent is `<sdk.path>/usr/bin/<tool>` probed; when both are absent,
location fails. -/
theorem C6_location_order (fs : String → Bool) (sdk : Sdk) (tool : String) :
    (fs (pathJoin (pathJoin sdk.path "bin") tool) = true →
      find_tool fs sdk tool = some (pathJoin (pathJoin sdk.path "bin") tool))
    ∧ (fs (pathJoin (pathJoin sdk.path "bin") tool) = false →
        fs (pathJoin (pathJoin sdk.path "usr/bin") tool) = true →
        find_tool fs sdk tool = some (pathJoin (pathJoin sdk.path "usr/bin") tool))
    ∧ (fs (pathJoin (pathJoin sdk.path "bin") tool) = false →
        fs (pathJoin (pathJoin sdk.path "usr/bin") tool) = false →
        find_tool fs sdk tool = none) := by
  refine ⟨fun h1 => by simp [find_tool, h1], fun h1 h2 => by simp [find_tool, h1, h2],
    fun h1 h2 => by simp [find_tool, h1, h2]⟩

theorem C6_location_order_witness :
    find_tool (fun _ => true) sdkA "t" = some "/A/bin/t" :=
  (C6_location_order (fun _ => true) sdkA "t").1 rfl

/-! ### Helper lemmas about the phase structure of `mainRun` -/

theorem findPhase_no_find (fs : String → Bool) (configuration : XcrunConfiguration)
    (xcrun : Xcrun) (h : xcrun.find = none) :
    findPhase fs configuration xcrun = ([], none) := by
  simp [findPhase, h]

theorem execPhase_no_args (w : World) (configuration : XcrunConfiguration)
    (xcrun : Xcrun) (h : xcrun.arguments = []) :
    execPhase w configuration xcrun = ([], none) := by
  simp [execPhase, h]

theorem mainRun_of_findPhase_stop (w : World) (configuration : XcrunConfiguration)
    (xcrun : Xcrun) (evs : List Event) (o : Outcome)
    (h : findPhase w.fs configuration xcrun = (evs, some o)) :
    mainRun w configuration xcrun =
      ((if xcrun.version then [Event.stdout "xcrun 1.0.0"] else [])
        ++ dumpEvents configuration xcrun ++ evs, o) := by
  simp [mainRun, h]

theorem mainRun_of_execPhase_stop (w : World) (configuration : XcrunConfiguration)
    (xcrun : Xcrun) (findEvs execEvs : List Event) (o : Outcome)
    (hf : findPhase w.fs configuration xcrun = (findEvs, none))
    (he : execPhase w configuration xcrun = (execEvs, some o)) :
    mainRun w configuration xcrun =
      ((if xcrun.version then [Event.stdout "xcrun 1.0.0"] else [])
        ++ dumpEvents configuration xcrun ++ findEvs ++ execEvs, o) := by
  simp [mainRun, hf, he]

theorem mainRun_of_fallthrough (w : World) (configuration : XcrunConfiguration)
    (xcrun : Xcrun) (findEvs execEvs : List Event)
    (hf : findPhase w.fs configuration xcrun = (findEvs, none))
    (he : execPhase w configuration xcrun = (execEvs, none)) :
    mainRun w configuration xcrun =
      ((if xcrun.version then [Event.stdout "xcrun 1.0.0"] else [])
        ++ dumpEvents configuration xcrun ++ findEvs ++ execEvs
        ++ (if xcrun.verbose then [Event.stdoutDebug xcrun] else []),
        Outcome.completed) := by
  simp [mainRun, hf, he]

theorem dumpEvents_spawn_free (configuration : XcrunConfiguration) (xcrun : Xcrun) :
    (dumpEvents configuration xcrun).filter Event.isSpawn = [] := by
  apply List.filter_eq_nil_iff.mpr
  intro e he
  simp only [dumpEvents, dumpLines, List.mem_append] at he
  rcases he with ((((h | h) | h) | h) | h) <;>
    · split at h <;> simp at h
      obtain ⟨sdk, _, hsdk⟩ := h
      simp [← hsdk, Event.isSpawn]

theorem findPhase_spawn_free (fs : String → Bool)
    (configuration : XcrunConfiguration) (xcrun : Xcrun) :
    ((findPhase fs configuration xcrun).1).filter Event.isSpawn = [] := by
  cases hf : xcrun.find with
  | none => simp [findPhase, hf]
  | some tool =>
    cases hs : selectSdk fs configuration xcrun.sdk tool with
    | none => simp [findPhase, hf, hs, Event.isSpawn]
    | some sdk =>
      cases ht : find_tool fs sdk tool with
      | none => simp [findPhase, hf, hs, ht, Event.isSpawn]
      | some tool_path => simp [findPhase, hf, hs, ht, Event.isSpawn]

theorem execPhase_events (w : World) (configuration : XcrunConfiguration)
    (xcrun : Xcrun) (tool : String) (rest : List String) (sdk : Sdk)
    (tool_path : String) (ambient : String)
    (hargs : xcrun.arguments = tool :: rest)
    (hsel : selectSdk w.fs configuration xcrun.sdk tool = some sdk)
    (ht : find_tool w.fs sdk tool = some tool_path)
    (hp : w.path_var = some ambient) :
    (execPhase w configuration xcrun).1 =
      (if xcrun.log then
        [Event.stdout ("xcrun: info: invoking command: \n\t\""
          ++ String.intercalate " " (tool :: rest) ++ "\"")]
      else [])
      ++ [Event.spawn tool_path rest (buildEnv sdk ambient w.ld_library_path)] := by
  rcases hsp : w.spawnResult with _ | (_ | c) <;>
    simp [execPhase, hargs, hsel, ht, hp, hsp]

/-! ### C2: how selection and location failures surface -/

/-- C2 (counterexample): in execution mode with an empty store, selection
fails, yet the run panics with no stderr diagnostic at all, instead of
exiting with code 1 and a tool-not-found message. -/
theorem C2_exec_failure_counterexample :
    mainRun { fs := fun _ => false, path_var := some "P", ld_library_path := none
              spawnResult := some (some 0) } { sdks := [] }
        { xcrunNone with arguments := ["t"] } = ([], Outcome.panicked)
    ∧ Outcome.panicked ≠ Outcome.exited 1 :=
  ⟨rfl, by decide⟩

/-- C2 (amended): in find mode, selection failure and location failure
are reported identically — exit code 1 with a tool-not-found line on
stderr; in execution mode, either failure makes the process panic
instead of exiting 1 with that diagnostic. -/
theorem C2_amended_exit_codes (w : World) (configuration : XcrunConfiguration)
    (xcrun : Xcrun) :
    (∀ tool, xcrun.find = some tool →
      selectSdk w.fs configuration xcrun.sdk tool = none →
      (mainRun w configuration xcrun).2 = Outcome.exited 1
      ∧ Event.stderr ("xcrun: error: tool not found: " ++ tool)
          ∈ (mainRun w configuration xcrun).1)
    ∧ (∀ tool sdk, xcrun.find = some tool →
      selectSdk w.fs configuration xcrun.sdk tool = some sdk →
      find_tool w.fs sdk tool = none →
      (mainRun w configuration xcrun).2 = Outcome.exited 1
      ∧ Event.stderr ("xcrun: error: tool not found: " ++ tool)
          ∈ (mainRun w configuration xcrun).1)
    ∧ (∀ tool rest, xcrun.find = none → xcrun.arguments = tool :: rest →
      selectSdk w.fs configuration xcrun.sdk tool = none →
      (mainRun w configuration xcrun).2 = Outcome.panicked)
    ∧ (∀ tool rest sdk, xcrun.find = none → xcrun.arguments = tool :: rest →
      selectSdk w.fs configuration xcrun.sdk tool = some sdk →
      find_tool w.fs sdk tool = none →
      (mainRun w configuration xcrun).2 = Outcome.panicked) := by
  refine ⟨?_, ?_, ?_, ?_⟩
  · intro tool hfind hsel
    have hstop : findPhase w.fs configuration xcrun =
        ([Event.stderr ("xcrun: error: tool not found: " ++ tool)],
         some (Outcome.exited 1)) := by
      simp [findPhase, hfind, hsel]
    rw [mainRun_of_findPhase_stop w configuration xcrun _ _ hstop]
    simp
  · intro tool sdk hfind hsel ht
    have hstop : findPhase w.fs configuration xcrun =
        ([Event.stderr ("xcrun: error: tool not found: " ++ tool)],
         some (Outcome.exited 1)) := by
      simp [findPhase, hfind, hsel, ht]
    rw [mainRun_of_findPhase_stop w configuration xcrun _ _ hstop]
    simp
  · intro tool rest hfind hargs hsel
    have he : execPhase w configuration xcrun = ([], some Outcome.panicked) := by
      simp [execPhase, hargs, hsel]
    rw [mainRun_of_execPhase_stop w configuration xcrun _ _ _
      (findPhase_no_find w.fs configuration xcrun hfind) he]
  · intro tool rest sdk hfind hargs hsel ht
    have he : execPhase w configuration xcrun = ([], some Outcome.panicked) := by
      simp [execPhase, hargs, hsel, ht]
    rw [mainRun_of_execPhase_stop w configuration xcrun _ _ _
      (findPhase_no_find w.fs configuration xcrun hfind) he]

theorem C2_amended_exit_codes_witness :
    (mainRun { fs := fun _ => false, path_var := some "P", ld_library_path := none
               spawnResult := some (some 0) } cfgAB
        { xcrunNone with find := some "t", sdk := some "z" }).2 = Outcome.exited 1
    ∧ Event.stderr ("xcrun: error: tool not found: " ++ "t")
        ∈ (mainRun { fs := fun _ => false, path_var := some "P"
                     ld_library_path := none, spawnResult := some (some 0) } cfgAB
            { xcrunNone with find := some "t", sdk := some "z" }).1 :=
  (C2_amended_exit_codes _ cfgAB _).1 "t" rfl (by decide)

/-! ### C3: the find query spawns nothing -/

/-- C3: handling the `find` request never emits a spawn event, for every
input with the find flag set — including those that also carry free
tool-plus-argument tokens; and a full run whose free-argument list is
empty spawns no subprocess at all. -/
theorem C3_query_no_spawn (w : World) (configuration : XcrunConfiguration)
    (xcrun : Xcrun) (tool : String) (hfind : xcrun.find = some tool) :
    ((findPhase w.fs configuration xcrun).1).filter Event.isSpawn = []
    ∧ (xcrun.arguments = [] →
        (mainRun w configuration xcrun).1.filter Event.isSpawn = []) := by
  refine ⟨findPhase_spawn_free _ _ _, ?_⟩
  intro hargs
  have hfe : ((findPhase w.fs configuration xcrun).1).filter Event.isSpawn = [] :=
    findPhase_spawn_free _ _ _
  rcases hstop : findPhase w.fs configuration xcrun with ⟨findEvs, o⟩
  rw [hstop] at hfe
  cases o with
  | some o =>
    rw [mainRun_of_findPhase_stop w configuration xcrun _ _ hstop]
    simp only [List.filter_append, dumpEvents_spawn_free, hfe, List.append_nil]
    split <;> simp [Event.isSpawn]
  | none =>
    rw [mainRun_of_fallthrough w configuration xcrun _ _ hstop
      (execPhase_no_args w configuration xcrun hargs)]
    simp only [List.filter_append, dumpEvents_spawn_free, hfe, List.append_nil,
      List.filter_nil]
    rw [List.append_eq_nil]
    constructor <;> (split <;> simp [Event.isSpawn])

theorem C3_query_no_spawn_witness :
    (mainRun { fs := fun _ => true, path_var := some "P", ld_library_path := none
               spawnResult := some (some 0) } cfgAB
        { xcrunNone with find := some "t" }).1.filter Event.isSpawn = [] :=
  (C3_query_no_spawn _ cfgAB _ "t" rfl).2 rfl

/-! ### C4: the spawned subprocess's library search path -/

/-- C4 (counterexample): with SDK path `/A` and no ambient value, the
spawned subprocess's `LD_LIBRARY_PATH` is `/A/lib:` — a trailing colon
(empty entry) — not exactly `/A/lib`. -/
theorem C4_ld_counterexample :
    (execPhase { fs := fun _ => true, path_var := some "P", ld_library_path := none
                 spawnResult := some (some 0) } { sdks := [sdkA] }
        { xcrunNone with arguments := ["t"] }).1 =
      [Event.spawn "/A/bin/t" []
        { sdkroot := "/A", path := "/A:P", ld_library_path := "/A/lib:" }]
    ∧ ("/A/lib:" : String) ≠ "/A" ++ "/lib" :=
  ⟨rfl, by decide⟩

/-- C4 (amended): the spawned subprocess's `LD_LIBRARY_PATH` equals
`<sdk.path>/lib:` followed by the ambient value when the ambient value is
present, and `<sdk.path>/lib:` — the SDK's lib directory with a trailing
colon, i.e. a trailing empty entry — when the ambient value is absent. -/
theorem C4_amended_ld (w : World) (configuration : XcrunConfiguration)
    (xcrun : Xcrun) (exe : String) (args : List String) (env : SpawnEnv)
    (sdk : Sdk) (tool : String) (rest : List String)
    (hargs : xcrun.arguments = tool :: rest)
    (hsel : selectSdk w.fs configuration xcrun.sdk tool = some sdk)
    (hmem : Event.spawn exe args env ∈ (execPhase w configuration xcrun).1) :
    (∀ v, w.ld_library_path = some v →
      env.ld_library_path = sdk.path ++ "/lib:" ++ v)
    ∧ (w.ld_library_path = none → env.ld_library_path = sdk.path ++ "/lib:") := by
  cases ht : find_tool w.fs sdk tool with
  | none => simp [execPhase, hargs, hsel, ht] at hmem
  | some tool_path =>
    cases hp : w.path_var with
    | none => simp [execPhase, hargs, hsel, ht, hp] at hmem
    | some ambient =>
      rw [execPhase_events w configuration xcrun tool rest sdk tool_path ambient
        hargs hsel ht hp, List.mem_append] at hmem
      rcases hmem with h | h
      · split at h <;> simp at h
      · simp at h
        obtain ⟨-, -, henv⟩ := h
        subst henv
        constructor
        · intro v hv
          simp [buildEnv, hv]
        · intro hv
          simp [buildEnv, hv]

theorem C4_amended_ld_witness :
    (SpawnEnv.mk "/A" "/A:P" "/A/lib:L").ld_library_path
      = sdkA.path ++ "/lib:" ++ "L" :=
  (C4_amended_ld { fs := fun _ => true, path_var := some "P"
                   ld_library_path := some "L", spawnResult := some (some 0) }
    { sdks := [sdkA] } { xcrunNone with arguments := ["t"] }
    "/A/bin/t" [] (SpawnEnv.mk "/A" "/A:P" "/A/lib:L") sdkA "t" []
    rfl (by decide) (by decide)).1 "L" rfl

theorem execPhase_spawn_inv (w : World) (configuration : XcrunConfiguration)
    (xcrun : Xcrun) (exe : String) (args : List String) (env : SpawnEnv)
    (hmem : Event.spawn exe args env ∈ (execPhase w configuration xcrun).1) :
    ∃ tool rest sdk tool_path ambient,
      xcrun.arguments = tool :: rest ∧
      selectSdk w.fs configuration xcrun.sdk tool = some sdk ∧
      find_tool w.fs sdk tool = some tool_path ∧
      w.path_var = some ambient := by
  cases hargs : xcrun.arguments with
  | nil => simp [execPhase, hargs] at hmem
  | cons tool rest =>
    cases hsel : selectSdk w.fs configuration xcrun.sdk tool with
    | none => simp [execPhase, hargs, hsel] at hmem
    | some sdk =>
      cases ht : find_tool w.fs sdk tool with
      | none => simp [execPhase, hargs, hsel, ht] at hmem
      | some tp =>
        cases hp : w.path_var with
        | none => simp [execPhase, hargs, hsel, ht, hp] at hmem
        | some amb => exact ⟨tool, rest, sdk, tp, amb, rfl, hsel, ht, rfl⟩

theorem execPhase_outcome (w : World) (configuration : XcrunConfiguration)
    (xcrun : Xcrun) (tool : String) (rest : List String) (sdk : Sdk)
    (tool_path : String) (ambient : String)
    (hargs : xcrun.arguments = tool :: rest)
    (hsel : selectSdk w.fs configuration xcrun.sdk tool = some sdk)
    (ht : find_tool w.fs sdk tool = some tool_path)
    (hp : w.path_var = some ambient) :
    (execPhase w configuration xcrun).2 =
      match w.spawnResult with
      | none => some Outcome.panicked
      | some none => some Outcome.panicked
      | some (some c) => some (Outcome.exited c) := by
  rcases hsp : w.spawnResult with _ | (_ | c) <;>
    simp [execPhase, hargs, hsel, ht, hp, hsp]

/-! ### C7 and C10: exit-status propagation and signal death -/

/-- C7: when execution mode spawns the tool and the subprocess terminates
normally with exit code `c`, the parent's own exit status is exactly `c`. -/
theorem C7_exit_propagation (w : World) (configuration : XcrunConfiguration)
    (xcrun : Xcrun) (c : Int) (exe : String) (args : List String) (env : SpawnEnv)
    (hmem : Event.spawn exe args env ∈ (execPhase w configuration xcrun).1)
    (hc : w.spawnResult = some (some c)) :
    (execPhase w configuration xcrun).2 = some (Outcome.exited c)
    ∧ ((findPhase w.fs configuration xcrun).2 = none →
        (mainRun w configuration xcrun).2 = Outcome.exited c) := by
  obtain ⟨tool, rest, sdk, tool_path, ambient, hargs, hsel, ht, hp⟩ :=
    execPhase_spawn_inv w configuration xcrun exe args env hmem
  have hout : (execPhase w configuration xcrun).2 = some (Outcome.exited c) := by
    rw [execPhase_outcome w configuration xcrun tool rest sdk tool_path ambient
      hargs hsel ht hp, hc]
  refine ⟨hout, ?_⟩
  intro hfp
  rcases hstop : findPhase w.fs configuration xcrun with ⟨findEvs, o⟩
  have ho : o = none := by rw [hstop] at hfp; exact hfp
  subst ho
  rcases hexec : execPhase w configuration xcrun with ⟨execEvs, o2⟩
  have ho2 : o2 = some (Outcome.exited c) := by rw [hexec] at hout; exact hout
  subst ho2
  rw [mainRun_of_execPhase_stop w configuration xcrun findEvs execEvs _ hstop hexec]

theorem C7_exit_propagation_witness :
    (mainRun (wTrue (some (some 7))) cfgA xArgsT).2 = Outcome.exited 7 :=
  (C7_exit_propagation (wTrue (some (some 7))) cfgA xArgsT 7 "/A/bin/t" []
    (SpawnEnv.mk "/A" "/A:P" "/A/lib:") (by decide) rfl).2 rfl

/-- C10: when execution mode spawns the tool and the subprocess terminates
without an exit code (e.g. killed by a signal), `status.code().unwrap()`
panics: the parent panics instead of exiting with any defined status. -/
theorem C10_signal_panic (w : World) (configuration : XcrunConfiguration)
    (xcrun : Xcrun) (exe : String) (args : List String) (env : SpawnEnv)
    (hmem : Event.spawn exe args env ∈ (execPhase w configuration xcrun).1)
    (hc : w.spawnResult = some none) :
    (execPhase w configuration xcrun).2 = some Outcome.panicked
    ∧ ((findPhase w.fs configuration xcrun).2 = none →
        (mainRun w configuration xcrun).2 = Outcome.panicked
        ∧ ∀ k : Int, (mainRun w configuration xcrun).2 ≠ Outcome.exited k) := by
  obtain ⟨tool, rest, sdk, tool_path, ambient, hargs, hsel, ht, hp⟩ :=
    execPhase_spawn_inv w configuration xcrun exe args env hmem
  have hout : (execPhase w configuration xcrun).2 = some Outcome.panicked := by
    rw [execPhase_outcome w configuration xcrun tool rest sdk tool_path ambient
      hargs hsel ht hp, hc]
  refine ⟨hout, ?_⟩
  intro hfp
  rcases hstop : findPhase w.fs configuration xcrun with ⟨findEvs, o⟩
  have ho : o = none := by rw [hstop] at hfp; exact hfp
  subst ho
  rcases hexec : execPhase w configuration xcrun with ⟨execEvs, o2⟩
  have ho2 : o2 = some Outcome.panicked := by rw [hexec] at hout; exact hout
  subst ho2
  rw [mainRun_of_execPhase_stop w configuration xcrun findEvs execEvs _ hstop hexec]
  exact ⟨rfl, by intro k h; exact Outcome.noConfusion h⟩

theorem C10_signal_panic_witness :
    (mainRun (wTrue (some none)) cfgA xArgsT).2 = Outcome.panicked :=
  ((C10_signal_panic (wTrue (some none)) cfgA xArgsT "/A/bin/t" []
    (SpawnEnv.mk "/A" "/A:P" "/A/lib:") (by decide) rfl).2 rfl).1

/-! ### C8: whole-store dump flags -/

/-- C8: each dump flag, when set, prints exactly one line per configured
SDK in store order, independent of the `sdkHint`; the toolchain-path and
toolchain-version flags print each descriptor's `path` and `version`,
identically to the non-toolchain flags. -/
theorem C8_dump_flags (configuration : XcrunConfiguration) (xcrun : Xcrun)
    (hint : Option String) :
    dumpEvents configuration { xcrun with sdk := hint }
      = dumpEvents configuration xcrun
    ∧ (∀ f : Sdk → String,
        (dumpLines true configuration f).length = configuration.sdks.length
        ∧ (∀ i : ℕ, (dumpLines true configuration f)[i]?
            = (configuration.sdks[i]?).map (fun sdk => Event.stdout (f sdk)))
        ∧ dumpLines false configuration f = [])
    ∧ (xcrun.show_sdk_path = false → xcrun.show_sdk_version = false →
        xcrun.show_sdk_target_triple = false →
        xcrun.show_sdk_toolchain_path = false →
        xcrun.show_sdk_toolchain_version = false →
        dumpEvents configuration { xcrun with show_sdk_toolchain_path := true }
          = dumpEvents configuration { xcrun with show_sdk_path := true }
        ∧ dumpEvents configuration { xcrun with show_sdk_toolchain_version := true }
          = dumpEvents configuration { xcrun with show_sdk_version := true }) := by
  refine ⟨rfl, ?_, ?_⟩
  · intro f
    refine ⟨by simp [dumpLines], ?_, by simp [dumpLines]⟩
    intro i
    simp [dumpLines]
  · intro h1 h2 h3 h4 h5
    constructor <;> simp [dumpEvents, dumpLines, h1, h2, h3, h4, h5]

theorem C8_dump_flags_witness :
    dumpEvents cfgAB { xcrunNone with show_sdk_toolchain_path := true }
      = dumpEvents cfgAB { xcrunNone with show_sdk_path := true } :=
  ((C8_dump_flags cfgAB xcrunNone none).2.2 rfl rfl rfl rfl rfl).1

/-! ### C9: ordering and termination of the request modes -/

/-- C9 (counterexample): an invocation requesting both execution mode and
verbose output never prints the verbose dump — the execution phase
terminates the process with the child's exit status first — refuting the
claim that all other requested operations still run. -/
theorem C9_counterexample :
    xVerboseRun.verbose = true
    ∧ (mainRun (wTrue (some (some 0))) cfgA xVerboseRun).1.filter
        Event.isDebugDump = []
    ∧ (mainRun (wTrue (some (some 0))) cfgA xVerboseRun).2 = Outcome.exited 0 :=
  ⟨rfl, rfl, rfl⟩

theorem dumpEvents_debug_free (configuration : XcrunConfiguration) (xcrun : Xcrun) :
    (dumpEvents configuration xcrun).filter Event.isDebugDump = [] := by
  apply List.filter_eq_nil_iff.mpr
  intro e he
  simp only [dumpEvents, dumpLines, List.mem_append] at he
  rcases he with ((((h | h) | h) | h) | h) <;>
    · split at h <;> simp at h
      obtain ⟨sdk, _, hsdk⟩ := h
      simp [← hsdk, Event.isDebugDump]

theorem findPhase_debug_free (fs : String → Bool)
    (configuration : XcrunConfiguration) (xcrun : Xcrun) :
    ((findPhase fs configuration xcrun).1).filter Event.isDebugDump = [] := by
  cases hf : xcrun.find with
  | none => simp [findPhase, hf]
  | some tool =>
    cases hs : selectSdk fs configuration xcrun.sdk tool with
    | none => simp [findPhase, hf, hs, Event.isDebugDump]
    | some sdk =>
      cases ht : find_tool fs sdk tool with
      | none => simp [findPhase, hf, hs, ht, Event.isDebugDump]
      | some tool_path => simp [findPhase, hf, hs, ht, Event.isDebugDump]

theorem execPhase_debug_free (w : World) (configuration : XcrunConfiguration)
    (xcrun : Xcrun) :
    ((execPhase w configuration xcrun).1).filter Event.isDebugDump = [] := by
  cases hargs : xcrun.arguments with
  | nil => simp [execPhase, hargs]
  | cons tool rest =>
    cases hsel : selectSdk w.fs configuration xcrun.sdk tool with
    | none => simp [execPhase, hargs, hsel]
    | some sdk =>
      cases ht : find_tool w.fs sdk tool with
      | none => simp [execPhase, hargs, hsel, ht]
      | some tp =>
        cases hp : w.path_var with
        | none => simp [execPhase, hargs, hsel, ht, hp]
        | some amb =>
          rw [execPhase_events w configuration xcrun tool rest sdk tp amb
            hargs hsel ht hp]
          rw [List.filter_append, List.append_eq_nil]
          constructor
          · split <;> simp [Event.isDebugDump]
          · simp [Event.isDebugDump]

theorem execPhase_stops (w : World) (configuration : XcrunConfiguration)
    (xcrun : Xcrun) (h : xcrun.arguments ≠ []) :
    (execPhase w configuration xcrun).2 ≠ none := by
  cases hargs : xcrun.arguments with
  | nil => exact absurd hargs h
  | cons tool rest =>
    cases hsel : selectSdk w.fs configuration xcrun.sdk tool with
    | none => simp [execPhase, hargs, hsel]
    | some sdk =>
      cases ht : find_tool w.fs sdk tool with
      | none => simp [execPhase, hargs, hsel, ht]
      | some tp =>
        cases hp : w.path_var with
        | none => simp [execPhase, hargs, hsel, ht, hp]
        | some amb =>
          rw [execPhase_outcome w configuration xcrun tool rest sdk tp amb
            hargs hsel ht hp]
          rcases w.spawnResult with _ | (_ | c) <;> simp

/-- C9 (amended): the request modes are not mutually exclusive and are
processed in the fixed order version, dumps, find query, execution,
verbose; printing the program's own version does not terminate the
process (the outcome is unchanged, and the dump lines and find-query
events still follow the version line in order).  However, an operation
that terminates the process cuts the later ones off: whenever execution
mode runs (nonempty free arguments) the verbose dump is never printed;
the verbose dump is printed exactly when it is requested, no free
arguments are given, and the find query did not terminate the process. -/
theorem C9_amended_ordering (w : World) (configuration : XcrunConfiguration)
    (xcrun : Xcrun) :
    ((mainRun w configuration { xcrun with version := true }).2
        = (mainRun w configuration { xcrun with version := false }).2)
    ∧ (∃ rest, (mainRun w configuration { xcrun with version := true }).1
        = Event.stdout "xcrun 1.0.0"
            :: (dumpEvents configuration xcrun
                ++ (findPhase w.fs configuration xcrun).1 ++ rest))
    ∧ (xcrun.arguments ≠ [] →
        (mainRun w configuration xcrun).1.filter Event.isDebugDump = [])
    ∧ (xcrun.verbose = true → xcrun.arguments = [] →
        (findPhase w.fs configuration xcrun).2 = none →
        (mainRun w configuration xcrun).1.filter Event.isDebugDump
          = [Event.stdoutDebug xcrun]) := by
  have hfT : findPhase w.fs configuration { xcrun with version := true }
      = findPhase w.fs configuration xcrun := rfl
  have hfF : findPhase w.fs configuration { xcrun with version := false }
      = findPhase w.fs configuration xcrun := rfl
  have heT : execPhase w configuration { xcrun with version := true }
      = execPhase w configuration xcrun := rfl
  have heF : execPhase w configuration { xcrun with version := false }
      = execPhase w configuration xcrun := rfl
  have hdT : dumpEvents configuration { xcrun with version := true }
      = dumpEvents configuration xcrun := rfl
  have hdF : dumpEvents configuration { xcrun with version := false }
      = dumpEvents configuration xcrun := rfl
  refine ⟨?_, ?_, ?_, ?_⟩
  · rcases hstop : findPhase w.fs configuration xcrun with ⟨findEvs, o⟩
    cases o with
    | some o =>
      rw [mainRun_of_findPhase_stop _ _ _ _ _ (hfT.trans hstop),
        mainRun_of_findPhase_stop _ _ _ _ _ (hfF.trans hstop)]
    | none =>
      rcases hex : execPhase w configuration xcrun with ⟨execEvs, o2⟩
      cases o2 with
      | some o2 =>
        rw [mainRun_of_execPhase_stop _ _ _ _ _ _ (hfT.trans hstop) (heT.trans hex),
          mainRun_of_execPhase_stop _ _ _ _ _ _ (hfF.trans hstop) (heF.trans hex)]
      | none =>
        rw [mainRun_of_fallthrough _ _ _ _ _ (hfT.trans hstop) (heT.trans hex),
          mainRun_of_fallthrough _ _ _ _ _ (hfF.trans hstop) (heF.trans hex)]
  · rcases hstop : findPhase w.fs configuration xcrun with ⟨findEvs, o⟩
    cases o with
    | some o =>
      rw [mainRun_of_findPhase_stop _ _ _ _ _ (hfT.trans hstop)]
      exact ⟨[], by simp [hdT]⟩
    | none =>
      rcases hex : execPhase w configuration xcrun with ⟨execEvs, o2⟩
      cases o2 with
      | some o2 =>
        rw [mainRun_of_execPhase_stop _ _ _ _ _ _ (hfT.trans hstop) (heT.trans hex)]
        exact ⟨execEvs, by simp [hdT]⟩
      | none =>
        rw [mainRun_of_fallthrough _ _ _ _ _ (hfT.trans hstop) (heT.trans hex)]
        refine ⟨execEvs ++ (if ({ xcrun with version := true } : Xcrun).verbose
          then [Event.stdoutDebug { xcrun with version := true }] else []), ?_⟩
        simp [hdT]
  · intro hargs
    rcases hstop : findPhase w.fs configuration xcrun with ⟨findEvs, o⟩
    have hff : findEvs.filter Event.isDebugDump = [] := by
      have := findPhase_debug_free w.fs configuration xcrun
      rw [hstop] at this
      exact this
    cases o with
    | some o =>
      rw [mainRun_of_findPhase_stop _ _ _ _ _ hstop]
      simp only [List.filter_append, dumpEvents_debug_free, hff, List.append_nil]
      split <;> simp [Event.isDebugDump]
    | none =>
      rcases hex : execPhase w configuration xcrun with ⟨execEvs, o2⟩
      cases o2 with
      | none =>
        exact absurd (by rw [hex] : (execPhase w configuration xcrun).2 = none)
          (execPhase_stops w configuration xcrun hargs)
      | some o2 =>
        have hef : execEvs.filter Event.isDebugDump = [] := by
          have := execPhase_debug_free w configuration xcrun
          rw [hex] at this
          exact this
        rw [mainRun_of_execPhase_stop _ _ _ _ _ _ hstop hex]
        simp only [List.filter_append, dumpEvents_debug_free, hff, hef,
          List.append_nil]
        split <;> simp [Event.isDebugDump]
  · intro hverb hargs hfp
    rcases hstop : findPhase w.fs configuration xcrun with ⟨findEvs, o⟩
    have ho : o = none := by rw [hstop] at hfp; exact hfp
    subst ho
    have hff : findEvs.filter Event.isDebugDump = [] := by
      have := findPhase_debug_free w.fs configuration xcrun
      rw [hstop] at this
      exact this
    rw [mainRun_of_fallthrough _ _ _ _ _ hstop
      (execPhase_no_args w configuration xcrun hargs)]
    simp only [List.filter_append, dumpEvents_debug_free, hff, hverb,
      List.filter_nil, List.append_nil, List.nil_append, if_true]
    split <;> simp [Event.isDebugDump]

theorem C9_amended_ordering_witness :
    (mainRun (wTrue (some (some 0))) cfgA xVerboseOnly).1.filter
        Event.isDebugDump = [Event.stdoutDebug xVerboseOnly] :=
  (C9_amended_ordering (wTrue (some (some 0))) cfgA xVerboseOnly).2.2.2 rfl rfl rfl
